import Mathlib

/-
Verification of the masked-scalar typing layer of cudf
(src/python/cudf/cudf/core/udf/typing.py).

The numba type universe that the typing layer manipulates is embedded as the
inductive `NType`.  Each numba typing template class becomes a function from
argument types to an optional signature, translated clause by clause from the
source.  The numba typing context (`context.unify_pairs`,
`context.resolve_function_type`) is an external collaborator and is embedded
as an abstract `Context` record; a small concrete instance modelled from the
spec is provided for concrete evaluations.
-/

namespace CudfTyping

/-- The fragment of the numba type universe used by typing.py.
`int`, `float`, `complex` are the numba `types.Number` kinds; `boolean` is
`types.Boolean`; `npDatetime` / `npTimedelta` are the two temporal kinds
(parameterized by a unit string); `pyObject` is `types.PyObject`;
`stringView` and `dString` are the two string representations declared in
typing.py; `naType` is the null sentinel NAType; `stringLiteral` is
`types.StringLiteral`; `poison` is `types.Poison` carrying a diagnostic;
`masked` is a MaskedType instance holding its stored value_type; `other`
stands for any further numba type (none of which is a Number, Boolean,
temporal, PyObject, string representation, literal, masked or NA type). -/
inductive NType where
  | int (signed : Bool) (bits : Nat)
  | float (bits : Nat)
  | complex (bits : Nat)
  | boolean
  | npDatetime (unit : String)
  | npTimedelta (unit : String)
  | pyObject
  | stringView
  | dString
  | naType
  | stringLiteral (lit : String)
  | poison (msg : String)
  | masked (valueType : NType)
  | other (tag : String)
deriving DecidableEq

/-- isinstance(value, (types.PyObject, StringView, DString)) -- the first
branch of MaskedType.__init__. -/
def isStringOrPyObject : NType → Bool
  | .pyObject => true
  | .stringView => true
  | .dString => true
  | _ => false

/-- isinstance(value, SUPPORTED_NUMBA_TYPES) where SUPPORTED_NUMBA_TYPES =
(types.Number, types.Boolean, types.NPDatetime, types.NPTimedelta,
types.PyObject). -/
def isSupportedNumbaType : NType → Bool
  | .int _ _ => true
  | .float _ => true
  | .complex _ => true
  | .boolean => true
  | .npDatetime _ => true
  | .npTimedelta _ => true
  | .pyObject => true
  | _ => false

/-- The diagnostic carried by the poisoned value_type produced by
MaskedType.__init__ for an unsupported value type. -/
def unsupportedMaskedTypeMsg : String :=
  "\n\n\n Unsupported MaskedType. This is usually caused by attempting to use a column of unsupported dtype in a UDF. Supported dtypes are (Number, Boolean, NPDatetime, NPTimedelta, PyObject)"

/-- The numba type name of each type, as used by Type.__repr__.  A MaskedType
is named Masked(value_type) as in MaskedType.__init__. -/
def NType.name : NType → String
  | .int true bits => "int" ++ toString bits
  | .int false bits => "uint" ++ toString bits
  | .float bits => "float" ++ toString bits
  | .complex bits => "complex" ++ toString bits
  | .boolean => "bool"
  | .npDatetime u => "datetime64[" ++ u ++ "]"
  | .npTimedelta u => "timedelta64[" ++ u ++ "]"
  | .pyObject => "pyobject"
  | .stringView => "string_view"
  | .dString => "dstring"
  | .naType => "NA"
  | .stringLiteral s => "Literal[str](" ++ s ++ ")"
  | .poison m => "Poison(" ++ m ++ ")"
  | .masked v => "Masked(" ++ NType.name v ++ ")"
  | .other tag => tag

/-- The numba typing context, an external collaborator: unify_pairs is the
underlying (non-masked) type unification, returning none when no common type
exists; resolveFunctionType is the underlying operator typing resolution,
giving the return type of an operator applied at the given argument types
(none models a failed resolution). -/
structure Context where
  unifyPairs : NType → NType → Option NType
  resolveFunctionType : String → List NType → Option NType

namespace MaskedType

/-- The value_type stored by MaskedType.__init__ for a given constructor
argument: string representations and PyObject degrade to dstring, the
remaining supported kinds are stored as-is, anything else becomes a poisoned
type carrying a diagnostic. -/
def storedValueType (value : NType) : NType :=
  if isStringOrPyObject value then .dString
  else if isSupportedNumbaType value then value
  else .poison unsupportedMaskedTypeMsg

/-- MaskedType(value): the constructed masked type. -/
def construct (value : NType) : NType :=
  .masked (storedValueType value)

/-- MaskedType applied to an optional value: Python has no option type, so
MaskedType(None) runs the same __init__ on the value None, which is neither a
string representation nor supported, hence poisoned. -/
def constructOpt : Option NType → NType
  | some v => construct v
  | none => .masked (.poison unsupportedMaskedTypeMsg)

/-- MaskedType.unify, phrased on the value_type of self (self is the masked
type Masked(valueType)).  Clause for clause from the source: NAType returns
self; another MaskedType returns MaskedType(unify_pairs of the two
value_types); otherwise unify_pairs against the other type, with an explicit
None check. -/
def unify (ctx : Context) (valueType : NType) (other : NType) : Option NType :=
  match other with
  | .naType => some (.masked valueType)
  | .masked otherValue => some (constructOpt (ctx.unifyPairs valueType otherValue))
  | _ =>
    match ctx.unifyPairs valueType other with
    | none => none
    | some unified => some (construct unified)

/-- MaskedType.__eq__, phrased on the value_type of self: false for any
non-masked other, otherwise equality of the stored value_types. -/
def beq (valueType : NType) (other : NType) : Bool :=
  match other with
  | .masked otherValue => valueType == otherValue
  | _ => false

/-- MaskedType.__hash__: the hash of the repr, which for a numba type is its
name. -/
def hashOf (valueType : NType) : UInt64 :=
  (NType.name (.masked valueType)).hash

end MaskedType

namespace NAType

/-- NAType.unify: Masked is deferred back to MaskedType.unify (None), NA
unified with NA is NA, and anything else becomes MaskedType(other). -/
def unify (other : NType) : Option NType :=
  match other with
  | .masked _ => none
  | .naType => some .naType
  | _ => some (MaskedType.construct other)

end NAType

/-- A numba signature: return type, argument types, optional bound receiver. -/
structure Signature where
  return_type : NType
  args : List NType
  recvr : Option NType
deriving DecidableEq

/-- MaskedScalarArithOp.generic: Masked op Masked resolves the underlying
operator on the two value_types and wraps the result as a MaskedType. -/
def MaskedScalarArithOp.generic (ctx : Context) (key : String)
    (arg0 arg1 : NType) : Option Signature :=
  match arg0, arg1 with
  | .masked v0, .masked v1 =>
    (ctx.resolveFunctionType key [v0, v1]).map
      (fun rt => ⟨MaskedType.construct rt, [arg0, arg1], none⟩)
  | _, _ => none

/-- MaskedScalarNullOp.generic: Masked op NA and NA op Masked both return the
masked operand type unchanged. -/
def MaskedScalarNullOp.generic (arg0 arg1 : NType) : Option Signature :=
  match arg0, arg1 with
  | .masked _, .naType => some ⟨arg0, [arg0, .naType], none⟩
  | .naType, .masked _ => some ⟨arg1, [.naType, arg1], none⟩
  | _, _ => none

/-- MaskedScalarScalarOp.generic: Masked op scalar (either order) resolves the
underlying operator between the value_type and the scalar type and wraps the
result as a MaskedType; any other combination fails typing. -/
def MaskedScalarScalarOp.generic (ctx : Context) (key : String)
    (arg0 arg1 : NType) : Option Signature :=
  let toResolve : Option (NType × NType) :=
    match arg0, arg1 with
    | .masked v0, a1 => if isSupportedNumbaType a1 then some (v0, a1) else none
    | a0, .masked v1 => if isSupportedNumbaType a0 then some (v1, a0) else none
    | _, _ => none
  match toResolve with
  | none => none
  | some (t0, t1) =>
    (ctx.resolveFunctionType key [t0, t1]).map
      (fun rt => ⟨MaskedType.construct rt, [arg0, arg1], none⟩)

/-- MaskedScalarIsNull.generic: operator.is_ typed for (Masked, NA) and
(NA, Masked), producing a plain boolean. -/
def MaskedScalarIsNull.generic (arg0 arg1 : NType) : Option Signature :=
  match arg0, arg1 with
  | .masked _, .naType => some ⟨.boolean, [arg0, .naType], none⟩
  | .naType, .masked _ => some ⟨.boolean, [.naType, arg1], none⟩
  | _, _ => none

/-- MaskedScalarTruth.generic: operator.truth on any MaskedType operand
produces a plain boolean, with the declared argument type
MaskedType(types.boolean). -/
def MaskedScalarTruth.generic (arg0 : NType) : Option Signature :=
  match arg0 with
  | .masked _ => some ⟨.boolean, [MaskedType.construct .boolean], none⟩
  | _ => none

/-- UnpackReturnToMasked.generic: pack_return passes a MaskedType through
unchanged, wraps a supported scalar type as a MaskedType, and declines for
anything else. -/
def UnpackReturnToMasked.generic (arg0 : NType) : Option Signature :=
  match arg0 with
  | .masked _ => some ⟨arg0, [arg0], none⟩
  | _ =>
    if isSupportedNumbaType arg0 then
      some ⟨MaskedType.construct arg0, [arg0], none⟩
    else none

/-- MaskedDStringLength.generic: len of a MaskedType whose value_type is
DString is MaskedType(int32). -/
def MaskedDStringLength.generic (args : List NType) : Option Signature :=
  match args with
  | arg0 :: _ =>
    match arg0 with
    | .masked .dString => some ⟨MaskedType.construct (.int true 32), [arg0], none⟩
    | _ => none
  | [] => none

/-- StringLiteralLength.generic: len of a python string literal is a plain
int32 (requires exactly one argument). -/
def StringLiteralLength.generic (args : List NType) : Option Signature :=
  match args with
  | [arg0] =>
    match arg0 with
    | .stringLiteral _ => some ⟨.int true 32, [arg0], none⟩
    | _ => none
  | _ => none

/-- MaskedStringStartsWith.generic: one MaskedType(dstring) argument, plain
boolean result, bound to the receiver thisType. -/
def MaskedStringStartsWith.generic (thisType : NType) : Option Signature :=
  some ⟨.boolean, [MaskedType.construct .dString], some thisType⟩

/-- MaskedStringEndsWith.generic. -/
def MaskedStringEndsWith.generic (thisType : NType) : Option Signature :=
  some ⟨.boolean, [MaskedType.construct .dString], some thisType⟩

/-- MaskedStringFind.generic: one MaskedType(dstring) argument, plain int32
result. -/
def MaskedStringFind.generic (thisType : NType) : Option Signature :=
  some ⟨.int true 32, [MaskedType.construct .dString], some thisType⟩

/-- MaskedStringRFind.generic. -/
def MaskedStringRFind.generic (thisType : NType) : Option Signature :=
  some ⟨.int true 32, [MaskedType.construct .dString], some thisType⟩

/-- MaskedStringUpper.generic: no argument, MaskedType(dstring) result. -/
def MaskedStringUpper.generic (thisType : NType) : Option Signature :=
  some ⟨MaskedType.construct .dString, [], some thisType⟩

/-- MaskedStringLower.generic. -/
def MaskedStringLower.generic (thisType : NType) : Option Signature :=
  some ⟨MaskedType.construct .dString, [], some thisType⟩

/-- A numba BoundFunction: a typing template bound to a receiver type. -/
structure BoundFunction where
  template : String
  this_type : NType
deriving DecidableEq

/-- MaskedDStringAttrs (key MaskedType(dstring)): each string method resolves
to its template bound at receiver MaskedType(dstring). -/
def MaskedDStringAttrs.resolve (attr : String) : Option BoundFunction :=
  if attr = "startswith" then
    some ⟨"MaskedStringStartsWith", MaskedType.construct .dString⟩
  else if attr = "endswith" then
    some ⟨"MaskedStringEndsWith", MaskedType.construct .dString⟩
  else if attr = "find" then
    some ⟨"MaskedStringFind", MaskedType.construct .dString⟩
  else if attr = "rfind" then
    some ⟨"MaskedStringRFind", MaskedType.construct .dString⟩
  else if attr = "upper" then
    some ⟨"MaskedStringUpper", MaskedType.construct .dString⟩
  else if attr = "lower" then
    some ⟨"MaskedStringLower", MaskedType.construct .dString⟩
  else none

/-- Modelled from the spec: the registered arithmetic operator symbols.  The
module cudf.core.udf._ops defining arith_ops is not among the sources; the
spec describes the categories as every arithmetic binary operator of the
language surface. -/
def arith_ops : List String :=
  ["add", "sub", "mul", "truediv", "floordiv", "mod", "pow"]

/-- Modelled from the spec: the registered bitwise operator symbols. -/
def bitwise_ops : List String := ["and", "or", "xor"]

/-- Modelled from the spec: the registered comparison operator symbols. -/
def comparison_ops : List String := ["eq", "ne", "lt", "le", "gt", "ge"]

/-- The operators for which the registration loop registers
MaskedScalarArithOp, MaskedScalarNullOp and MaskedScalarScalarOp. -/
def registeredBinaryOps : List String :=
  arith_ops ++ bitwise_ops ++ comparison_ops

/-- The combined typing of a registered binary operator: numba tries the
registered templates in registration order and takes the first signature.
The registration loop attaches the same three template classes to every
operator in the three lists. -/
def resolveBinaryOp (ctx : Context) (op : String) (arg0 arg1 : NType) :
    Option Signature :=
  if op ∈ registeredBinaryOps then
    match MaskedScalarArithOp.generic ctx op arg0 arg1 with
    | some s => some s
    | none =>
      match MaskedScalarNullOp.generic arg0 arg1 with
      | some s => some s
      | none => MaskedScalarScalarOp.generic ctx op arg0 arg1
  else none

/-- Modelled from the spec: a concrete fragment of the underlying (non-masked)
numba unification, enough to evaluate the theorems on concrete inputs: a type
unifies with itself, integer and floating kinds promote to the floating kind,
and all remaining pairs (for example a boolean against a string kind) have no
common type. -/
def specUnifyPairs (a b : NType) : Option NType :=
  if a = b then some a
  else
    match a, b with
    | .int _ _, .float fb => some (.float fb)
    | .float fb, .int _ _ => some (.float fb)
    | _, _ => none

/-- Modelled from the spec: a concrete fragment of the underlying operator
typing resolution: for a registered operator on two value types, comparisons
return boolean and the other categories return the promoted common type. -/
def specResolveFunctionType (op : String) (argTypes : List NType) :
    Option NType :=
  if op ∈ registeredBinaryOps then
    match argTypes with
    | [a, b] =>
      if op ∈ comparison_ops then
        match specUnifyPairs a b with
        | some _ => some .boolean
        | none => none
      else specUnifyPairs a b
    | _ => none
  else none

/-- Modelled from the spec: a concrete numba typing context built from the
two fragments above, for evaluating theorems at concrete inputs. -/
def specCtx : Context :=
  ⟨specUnifyPairs, specResolveFunctionType⟩

end CudfTyping

namespace CudfTyping

/-- C1 counterexample: the claim places the dynamic/opaque fallback
(types.PyObject) among the kinds stored as-is, but MaskedType.__init__ tests
isinstance(value, (types.PyObject, StringView, DString)) first, so a PyObject
value_type is stored as dstring, and the round-trip fails at P = PyObject. -/
theorem c1_counterexample :
    isSupportedNumbaType NType.pyObject = true ∧
    MaskedType.construct NType.pyObject ≠ NType.masked NType.pyObject ∧
    MaskedType.construct NType.pyObject = NType.masked NType.dString :=
  ⟨rfl, by decide, rfl⟩

/-- C1 (amended): MaskedType construction contract: a String Representation
(StringView or DString) and likewise the dynamic/opaque fallback PyObject are
stored as OwnedString (dstring); every other value_type of the supported
domain (numbers, boolean, the two temporal kinds) is stored as-is, so the
round-trip MaskedType(P).value_type = P holds for every supported P other
than PyObject. -/
theorem c1_construction_contract (v : NType) :
    (isStringOrPyObject v = true →
      MaskedType.construct v = NType.masked NType.dString) ∧
    (isSupportedNumbaType v = true → v ≠ NType.pyObject →
      MaskedType.construct v = NType.masked v) := by
  constructor
  · intro h
    cases v <;> simp_all [MaskedType.construct, MaskedType.storedValueType,
      isStringOrPyObject]
  · intro h hne
    cases v <;> simp_all [MaskedType.construct, MaskedType.storedValueType,
      isStringOrPyObject, isSupportedNumbaType]

/-- C1 witness: a StringView value_type is stored as dstring and a boolean
value_type is stored as-is. -/
theorem c1_construction_contract_witness :
    MaskedType.construct NType.stringView = NType.masked NType.dString ∧
    MaskedType.construct NType.boolean = NType.masked NType.boolean :=
  ⟨(c1_construction_contract NType.stringView).1 rfl,
   (c1_construction_contract NType.boolean).2 rfl (by decide)⟩

/-- C2 counterexample: when the underlying unification of the two value_types
fails (returns none), MaskedType.unify does not return the failure signal
none: it returns MaskedType(None), a masked type whose value_type is the
poisoned placeholder, because the Masked-Masked branch wraps the unify_pairs
result without a None check. -/
theorem c2_counterexample :
    specCtx.unifyPairs NType.boolean NType.dString = none ∧
    MaskedType.unify specCtx NType.boolean (NType.masked NType.dString) =
      some (NType.masked (NType.poison unsupportedMaskedTypeMsg)) ∧
    MaskedType.unify specCtx NType.boolean (NType.masked NType.dString) ≠
      none :=
  ⟨rfl, rfl, by decide⟩

/-- C2 (amended): unifying two masked types: when the underlying unification
of the value_types yields U, the result is MaskedType(U); when the underlying
unification fails, the result is not the failure signal none but a MaskedType
whose value_type is the poisoned placeholder (failure is deferred to the
point of use of the poisoned type). -/
theorem c2_masked_unify (ctx : Context) (A B : NType) :
    (∀ U, ctx.unifyPairs A B = some U →
      MaskedType.unify ctx A (NType.masked B) =
        some (MaskedType.construct U)) ∧
    (ctx.unifyPairs A B = none →
      MaskedType.unify ctx A (NType.masked B) =
        some (NType.masked (NType.poison unsupportedMaskedTypeMsg))) := by
  constructor
  · intro U h
    simp [MaskedType.unify, h, MaskedType.constructOpt]
  · intro h
    simp [MaskedType.unify, h, MaskedType.constructOpt]

/-- C2 witness: unifying Masked(int32) with Masked(float64) in the concrete
context yields MaskedType(float64). -/
theorem c2_masked_unify_witness :
    MaskedType.unify specCtx (NType.int true 32) (NType.masked (NType.float 64)) =
      some (MaskedType.construct (NType.float 64)) :=
  (c2_masked_unify specCtx (NType.int true 32) (NType.float 64)).1
    (NType.float 64) rfl

/-- C3 counterexample: the truthiness rule does not decline for a masked
non-boolean operand: applied to Masked(int32) it still produces a signature
(plain boolean result, declared argument type Masked(bool)), because the code
only tests isinstance(args[0], MaskedType). -/
theorem c3_counterexample :
    NType.masked (NType.int true 32) ≠ NType.masked NType.boolean ∧
    MaskedScalarTruth.generic (NType.masked (NType.int true 32)) =
      some ⟨NType.boolean, [NType.masked NType.boolean], none⟩ :=
  ⟨by decide, rfl⟩

/-- C3 (amended): the truth operator is typed for every masked operand,
whatever its value_type: the result is a plain boolean and the declared
argument type is MaskedType(boolean) (so a non-boolean masked operand is
coerced, not rejected); the rule declines exactly when the operand is not a
MaskedType. -/
theorem c3_truth_typing :
    (∀ v, MaskedScalarTruth.generic (NType.masked v) =
      some ⟨NType.boolean, [NType.masked NType.boolean], none⟩) ∧
    (∀ a, (∀ v, a ≠ NType.masked v) → MaskedScalarTruth.generic a = none) := by
  constructor
  · intro v
    rfl
  · intro a h
    cases a <;> first
      | rfl
      | exact absurd rfl (h _)

/-- C3 witness: a plain boolean operand (not masked) is declined. -/
theorem c3_truth_typing_witness :
    MaskedScalarTruth.generic NType.boolean = none :=
  c3_truth_typing.2 NType.boolean (fun _ h => NType.noConfusion h)

/-- C4: unification with the null sentinel: for every supported kind P,
Masked(P) unified with NA is Masked(P) with its value_type unchanged; NA
unified with NA is NA; and NA unified with any type X that is neither masked
nor NA is MaskedType(X). -/
theorem c4_null_sentinel_unify (ctx : Context) :
    (∀ P, isSupportedNumbaType P = true →
      MaskedType.unify ctx (MaskedType.storedValueType P) NType.naType =
        some (MaskedType.construct P)) ∧
    NAType.unify NType.naType = some NType.naType ∧
    (∀ X, (∀ v, X ≠ NType.masked v) → X ≠ NType.naType →
      NAType.unify X = some (MaskedType.construct X)) := by
  refine ⟨fun P _ => rfl, rfl, fun X h1 h2 => ?_⟩
  cases X <;> first
    | rfl
    | exact absurd rfl (h1 _)
    | exact absurd rfl h2

/-- C4 witness: Masked(bool) unified with NA is Masked(bool), and NA unified
with a bare int32 is Masked(int32). -/
theorem c4_null_sentinel_unify_witness :
    MaskedType.unify specCtx (MaskedType.storedValueType NType.boolean)
      NType.naType = some (MaskedType.construct NType.boolean) ∧
    NAType.unify (NType.int true 32) =
      some (MaskedType.construct (NType.int true 32)) :=
  ⟨(c4_null_sentinel_unify specCtx).1 NType.boolean rfl,
   (c4_null_sentinel_unify specCtx).2.2 (NType.int true 32)
     (fun _ h => NType.noConfusion h) (by decide)⟩

/-- C5: for every operator in the registered arithmetic, bitwise and
comparison sets, the typing of Masked(T) op NA and of NA op Masked(T) both
succeed and return exactly the masked operand type, unchanged, for every
stored value_type T and every context. -/
theorem c5_masked_null_ops (ctx : Context) (op : String)
    (hop : op ∈ registeredBinaryOps) (T : NType) :
    resolveBinaryOp ctx op (NType.masked T) NType.naType =
      some ⟨NType.masked T, [NType.masked T, NType.naType], none⟩ ∧
    resolveBinaryOp ctx op NType.naType (NType.masked T) =
      some ⟨NType.masked T, [NType.naType, NType.masked T], none⟩ := by
  refine ⟨?_, ?_⟩ <;>
    · unfold resolveBinaryOp
      rw [if_pos hop]
      rfl

/-- C5 witness: Masked(int32) add NA types to Masked(int32). -/
theorem c5_masked_null_ops_witness :
    resolveBinaryOp specCtx "add" (NType.masked (NType.int true 32))
        NType.naType =
      some ⟨NType.masked (NType.int true 32),
        [NType.masked (NType.int true 32), NType.naType], none⟩ :=
  (c5_masked_null_ops specCtx "add" (by decide) (NType.int true 32)).1

/-- C6: for every registered binary operator, Masked(T) op scalar and
scalar op Masked(T), with the scalar in the supported domain, resolve the
underlying operator typing between T and the scalar type; when that gives R
the result signature returns MaskedType(R). -/
theorem c6_masked_scalar_ops (ctx : Context) (op : String)
    (hop : op ∈ registeredBinaryOps) (T s R : NType)
    (hs : isSupportedNumbaType s = true)
    (hres : ctx.resolveFunctionType op [T, s] = some R) :
    resolveBinaryOp ctx op (NType.masked T) s =
      some ⟨MaskedType.construct R, [NType.masked T, s], none⟩ ∧
    resolveBinaryOp ctx op s (NType.masked T) =
      some ⟨MaskedType.construct R, [s, NType.masked T], none⟩ := by
  unfold resolveBinaryOp
  rw [if_pos hop, if_pos hop]
  cases s <;> simp_all [MaskedScalarArithOp.generic, MaskedScalarNullOp.generic,
    MaskedScalarScalarOp.generic, isSupportedNumbaType]

/-- C6 witness: Masked(int32) add float64 types to Masked(float64), by the
underlying integer and float promotion of the concrete context. -/
theorem c6_masked_scalar_ops_witness :
    resolveBinaryOp specCtx "add" (NType.masked (NType.int true 32))
        (NType.float 64) =
      some ⟨MaskedType.construct (NType.float 64),
        [NType.masked (NType.int true 32), NType.float 64], none⟩ :=
  (c6_masked_scalar_ops specCtx "add" (by decide) (NType.int true 32)
    (NType.float 64) (NType.float 64) rfl (by decide)).1

/-- C7: pack_return passes a MaskedType through to itself unchanged, wraps a
supported-domain scalar type t as MaskedType(t), and produces no signature
for any other input type. -/
theorem c7_pack_return :
    (∀ v, UnpackReturnToMasked.generic (NType.masked v) =
      some ⟨NType.masked v, [NType.masked v], none⟩) ∧
    (∀ t, isSupportedNumbaType t = true →
      UnpackReturnToMasked.generic t =
        some ⟨MaskedType.construct t, [t], none⟩) ∧
    (∀ t, (∀ v, t ≠ NType.masked v) → isSupportedNumbaType t = false →
      UnpackReturnToMasked.generic t = none) := by
  refine ⟨fun v => rfl, fun t ht => ?_, fun t hm hu => ?_⟩
  · cases t <;> simp_all [UnpackReturnToMasked.generic, isSupportedNumbaType]
  · cases t <;> simp_all [UnpackReturnToMasked.generic, isSupportedNumbaType]

/-- C7 witness: Masked(int32) packs to itself, a plain int32 packs to
Masked(int32), and the null sentinel type fails to pack. -/
theorem c7_pack_return_witness :
    UnpackReturnToMasked.generic (NType.masked (NType.int true 32)) =
      some ⟨NType.masked (NType.int true 32),
        [NType.masked (NType.int true 32)], none⟩ ∧
    UnpackReturnToMasked.generic (NType.int true 32) =
      some ⟨MaskedType.construct (NType.int true 32), [NType.int true 32], none⟩ ∧
    UnpackReturnToMasked.generic NType.naType = none :=
  ⟨c7_pack_return.1 (NType.int true 32),
   c7_pack_return.2.1 (NType.int true 32) rfl,
   c7_pack_return.2.2 NType.naType (fun _ h => NType.noConfusion h) rfl⟩

/-- C8: string operation result types on a receiver of type
MaskedType(dstring): startswith and endswith take one MaskedType(dstring)
argument and return plain boolean; find and rfind take one MaskedType(dstring)
argument and return plain int32; upper and lower take no argument and return
MaskedType(dstring); len of a MaskedType(dstring) is MaskedType(int32); len
of a string literal constant is plain int32.  Each method resolves on the
MaskedType(dstring) attribute template to its template bound at that
receiver. -/
theorem c8_string_op_result_types :
    MaskedDStringAttrs.resolve "startswith" =
      some ⟨"MaskedStringStartsWith", MaskedType.construct NType.dString⟩ ∧
    MaskedStringStartsWith.generic (MaskedType.construct NType.dString) =
      some ⟨NType.boolean, [MaskedType.construct NType.dString],
        some (MaskedType.construct NType.dString)⟩ ∧
    MaskedStringEndsWith.generic (MaskedType.construct NType.dString) =
      some ⟨NType.boolean, [MaskedType.construct NType.dString],
        some (MaskedType.construct NType.dString)⟩ ∧
    MaskedStringFind.generic (MaskedType.construct NType.dString) =
      some ⟨NType.int true 32, [MaskedType.construct NType.dString],
        some (MaskedType.construct NType.dString)⟩ ∧
    MaskedStringRFind.generic (MaskedType.construct NType.dString) =
      some ⟨NType.int true 32, [MaskedType.construct NType.dString],
        some (MaskedType.construct NType.dString)⟩ ∧
    MaskedStringUpper.generic (MaskedType.construct NType.dString) =
      some ⟨MaskedType.construct NType.dString, [],
        some (MaskedType.construct NType.dString)⟩ ∧
    MaskedStringLower.generic (MaskedType.construct NType.dString) =
      some ⟨MaskedType.construct NType.dString, [],
        some (MaskedType.construct NType.dString)⟩ ∧
    MaskedDStringLength.generic [MaskedType.construct NType.dString] =
      some ⟨MaskedType.construct (NType.int true 32),
        [MaskedType.construct NType.dString], none⟩ ∧
    (∀ s, StringLiteralLength.generic [NType.stringLiteral s] =
      some ⟨NType.int true 32, [NType.stringLiteral s], none⟩) :=
  ⟨rfl, rfl, rfl, rfl, rfl, rfl, rfl, rfl, fun _ => rfl⟩

/-- C9: the identity test is typed exactly for the pairs (Masked, NA) and
(NA, Masked), producing a plain boolean in both cases; every other operand
pair is declined. -/
theorem c9_is_null_typing :
    (∀ v, MaskedScalarIsNull.generic (NType.masked v) NType.naType =
      some ⟨NType.boolean, [NType.masked v, NType.naType], none⟩) ∧
    (∀ v, MaskedScalarIsNull.generic NType.naType (NType.masked v) =
      some ⟨NType.boolean, [NType.naType, NType.masked v], none⟩) ∧
    (∀ a0 a1, (∀ v, ¬(a0 = NType.masked v ∧ a1 = NType.naType)) →
      (∀ v, ¬(a0 = NType.naType ∧ a1 = NType.masked v)) →
      MaskedScalarIsNull.generic a0 a1 = none) := by
  refine ⟨fun v => rfl, fun v => rfl, fun a0 a1 h1 h2 => ?_⟩
  cases a0 <;> cases a1 <;> first
    | rfl
    | exact absurd ⟨rfl, rfl⟩ (h1 _)
    | exact absurd ⟨rfl, rfl⟩ (h2 _)

/-- C9 witness: two plain booleans are declined by the identity test rule. -/
theorem c9_is_null_typing_witness :
    MaskedScalarIsNull.generic NType.boolean NType.boolean = none :=
  c9_is_null_typing.2.2 NType.boolean NType.boolean
    (fun _ h => NType.noConfusion h.1) (fun _ h => NType.noConfusion h.1)

/-- C10: MaskedType equality and hashing: two masked types are equal iff
their stored value_types are equal; a masked type is never equal to a
non-masked type; and equal masked types hash equal. -/
theorem c10_eq_hash :
    (∀ a b, MaskedType.beq a (NType.masked b) = true ↔ a = b) ∧
    (∀ a t, (∀ v, t ≠ NType.masked v) → MaskedType.beq a t = false) ∧
    (∀ a b, MaskedType.beq a (NType.masked b) = true →
      MaskedType.hashOf a = MaskedType.hashOf b) := by
  refine ⟨fun a b => ?_, fun a t h => ?_, fun a b hab => ?_⟩
  · simp [MaskedType.beq]
  · cases t <;> first
      | rfl
      | exact absurd rfl (h _)
  · have : a = b := by simpa [MaskedType.beq] using hab
    rw [this]

/-- C10 witness: a masked boolean is not equal to the bare null sentinel
type, and equal value_types give equal hashes. -/
theorem c10_eq_hash_witness :
    MaskedType.beq NType.boolean NType.naType = false ∧
    MaskedType.hashOf NType.boolean = MaskedType.hashOf NType.boolean :=
  ⟨c10_eq_hash.2.1 NType.boolean NType.naType (fun _ h => NType.noConfusion h),
   c10_eq_hash.2.2 NType.boolean NType.boolean (by decide)⟩

end CudfTyping
